import Mathlib

/-!
Verification of the ZPHS01B multi-gas sensor application
(src/bin/zphs01b.rs) and the typed pubsub wrapper (src/furi/pubsub.rs).

Bytes are modelled as natural numbers below 256; u8 wrap-around arithmetic
is explicit modulo 256.  The f64 arithmetic of the measurement accessors and
the air-quality classifier is modelled over the exact rationals: every
threshold comparison `0.01 * (raw as f64) > c` was checked to round
identically to the exact rational comparison at the integer boundary raw
values (20, 300, 154, 124, 94, 44, 36, 10, ...), and the concrete
temperature computation 0.1 * 765 - 50.0 is exact in IEEE double, so the
rational embedding agrees with the IEEE semantics on all 16-bit inputs
used here.
-/

/-- Frame size of a ZPHS01B response (`RESPONSE_SIZE` in the source). -/
def RESPONSE_SIZE : Nat := 26

/-- Frame start marker (`START_BIT` in the source). -/
def START_BIT : Nat := 0xFF

/-- u8 `wrapping_add`. -/
def u8_wrapping_add (a b : Nat) : Nat := (a + b) % 256

/-- u8 bitwise `not` (the operand is a byte value below 256). -/
def u8_not (a : Nat) : Nat := 255 - a % 256

/-- `read_u16_be` from the source: `(data[0] as u16) << 8 | data[1] as u16`. -/
def read_u16_be (data : List Nat) : Nat :=
  data.getD 0 0 * 256 + data.getD 1 0

/-- `calculate_checksum` from the source:
fold the bytes with `wrapping_add`, complement, add one. -/
def calculate_checksum (data : List Nat) : Nat :=
  u8_wrapping_add (u8_not (data.foldl u8_wrapping_add 0)) 1

/-- VOC levels reported by ZP01-MP503 (`VOCLevel` in the source). -/
inductive VOCLevel where
  | Clean
  | Light
  | Moderate
  | Severe
  deriving DecidableEq, Repr

/-- Air quality index tiers (`AirQualityIndex` in the source). -/
inductive AirQualityIndex where
  | Good
  | Moderate
  | Sensitive
  | Unhealthy
  | VeryUnhealthy
  | Hazardous
  deriving DecidableEq, Repr

/-- Severity order of the tiers: `Good` least severe, `Hazardous` most. -/
def AirQualityIndex.rank : AirQualityIndex → Nat
  | .Good => 0
  | .Moderate => 1
  | .Sensitive => 2
  | .Unhealthy => 3
  | .VeryUnhealthy => 4
  | .Hazardous => 5

/-- The decoded sensor frame (`struct Measurement` in the source).
All fields hold the raw register values (u16, except `voc` which is u8). -/
structure Measurement where
  pm_1 : Nat
  pm_2_5 : Nat
  pm_10 : Nat
  co2 : Nat
  voc : Nat
  temp : Nat
  relative_humidity : Nat
  ch2o : Nat
  co : Nat
  o3 : Nat
  no2 : Nat
  deriving DecidableEq, Repr

/-- `Measurement::new()`: the all-zero measurement. -/
def Measurement.new : Measurement :=
  { pm_1 := 0, pm_2_5 := 0, pm_10 := 0, co2 := 0, voc := 0, temp := 0,
    relative_humidity := 0, ch2o := 0, co := 0, o3 := 0, no2 := 0 }

/-- `Measurement::temperature()`: `0.10 * self.temp as f64 - 50.0`.
(The Rust method shares its name with the raw field, which Lean does not
allow, hence the distinct name.) -/
def Measurement.temperature (m : Measurement) : ℚ :=
  0.10 * (m.temp : ℚ) - 50.0

/-- `Measurement::ch2o()`: `0.001 * self.ch2o as f64`. -/
def Measurement.ch2oQ (m : Measurement) : ℚ :=
  0.001 * (m.ch2o : ℚ)

/-- `Measurement::co()`: `0.1 * self.co as f64`. -/
def Measurement.coQ (m : Measurement) : ℚ :=
  0.1 * (m.co : ℚ)

/-- `Measurement::o3()`: `0.01 * self.o3 as f64`. -/
def Measurement.o3Q (m : Measurement) : ℚ :=
  0.01 * (m.o3 : ℚ)

/-- `Measurement::no2()`: `0.01 * self.no2 as f64`. -/
def Measurement.no2Q (m : Measurement) : ℚ :=
  0.01 * (m.no2 : ℚ)

/-- `Measurement::voc()`: the match on the raw `voc` byte.  The wildcard arm
panics in the source ("unexpected VOC value"); the panic is modelled as
`none`. -/
def Measurement.vocLevel (m : Measurement) : Option VOCLevel :=
  match m.voc with
  | 0 => some .Clean
  | 1 => some .Light
  | 2 => some .Moderate
  | 3 => some .Severe
  | _ => none

/-- `Measurement::air_quality_index()`: six tiers, most severe first, each
tier a disjunction of five threshold comparisons (PM1.0 is unused). -/
def Measurement.air_quality_index (m : Measurement) : AirQualityIndex :=
  if m.o3Q > 0.200 ∨ m.pm_2_5 > 250 ∨ m.pm_10 > 424 ∨ m.coQ > 30.0 ∨ m.no2Q > 1.249 then
    .Hazardous
  else if m.o3Q > 0.105 ∨ m.pm_2_5 > 150 ∨ m.pm_10 > 354 ∨ m.coQ > 15.4 ∨ m.no2Q > 0.649 then
    .VeryUnhealthy
  else if m.o3Q > 0.085 ∨ m.pm_2_5 > 55 ∨ m.pm_10 > 254 ∨ m.coQ > 12.4 ∨ m.no2Q > 0.360 then
    .Unhealthy
  else if m.o3Q > 0.070 ∨ m.pm_2_5 > 35 ∨ m.pm_10 > 154 ∨ m.coQ > 9.4 ∨ m.no2Q > 0.100 then
    .Sensitive
  else if m.o3Q > 0.054 ∨ m.pm_2_5 > 12 ∨ m.pm_10 > 54 ∨ m.coQ > 4.4 ∨ m.no2Q > 0.053 then
    .Moderate
  else
    .Good

/-- `impl TryFrom<&[u8]> for Measurement`: length check, checksum over bytes
1..=24 against byte 25, then fixed big-endian field extraction.  `Err` is
modelled as `none`. -/
def Measurement.try_from (buffer : List Nat) : Option Measurement :=
  if buffer.length ≠ RESPONSE_SIZE then none
  else
    if calculate_checksum ((buffer.drop 1).take 24) ≠ buffer.getD 25 0 then none
    else
      some
        { pm_1 := read_u16_be ((buffer.drop 2).take 2),
          pm_2_5 := read_u16_be ((buffer.drop 4).take 2),
          pm_10 := read_u16_be ((buffer.drop 6).take 2),
          co2 := read_u16_be ((buffer.drop 8).take 2),
          voc := buffer.getD 10 0,
          temp := read_u16_be ((buffer.drop 11).take 2),
          relative_humidity := read_u16_be ((buffer.drop 13).take 2),
          ch2o := read_u16_be ((buffer.drop 15).take 2),
          co := read_u16_be ((buffer.drop 17).take 2),
          o3 := read_u16_be ((buffer.drop 19).take 2),
          no2 := read_u16_be ((buffer.drop 21).take 2) }

/-- The 26-byte test frame from the source (`TEST_DATA`). -/
def TEST_DATA : List Nat :=
  [0xFF, 0x86, 0x00, 0x65, 0x00, 0x36, 0x00, 0x96, 0x01, 0x9A, 0x00, 0x02,
   0xFD, 0x00, 0x28, 0x00, 0x28, 0x00, 0x05, 0x00, 0x20, 0x00, 0x50, 0x00,
   0x00, 0xEA]

/-- The Measurement the test frame decodes to. -/
def TEST_MEASUREMENT : Measurement :=
  { pm_1 := 101, pm_2_5 := 54, pm_10 := 150, co2 := 410, voc := 0,
    temp := 765, relative_humidity := 40, ch2o := 40, co := 5,
    o3 := 32, no2 := 80 }

lemma try_from_TEST_DATA :
    Measurement.try_from TEST_DATA = some TEST_MEASUREMENT := by decide

lemma TEST_MEASUREMENT_temperature : TEST_MEASUREMENT.temperature = 26.5 := by
  norm_num [Measurement.temperature, TEST_MEASUREMENT]

lemma TEST_MEASUREMENT_aqi :
    TEST_MEASUREMENT.air_quality_index = AirQualityIndex.Hazardous := by
  norm_num [Measurement.air_quality_index, Measurement.o3Q, Measurement.coQ,
    Measurement.no2Q, TEST_MEASUREMENT]

/-- C1 counterexample: the frame decodes, but the temperature accessor
yields 26.5 degC (raw 0x02FD = 765, 0.1 * 765 - 50 = 26.5), not the 25.5
stated in the claim. -/
theorem C1_temperature_counterexample :
    (Measurement.try_from TEST_DATA).map Measurement.temperature = some (26.5 : ℚ) ∧
    (Measurement.try_from TEST_DATA).map Measurement.temperature ≠ some (25.5 : ℚ) := by
  rw [try_from_TEST_DATA, Option.map_some', TEST_MEASUREMENT_temperature]
  refine ⟨rfl, ?_⟩
  intro h
  have h2 : (26.5 : ℚ) = 25.5 := Option.some_injective ℚ h
  norm_num at h2

/-- C1 (amended): decoding the 26-byte test frame via Measurement.try_from
succeeds and yields PM1.0 = 101, PM2.5 = 54, PM10 = 150 ug/m3, CO2 = 410 ppm,
VOC = 0, temperature = 26.5 degC, humidity = 40 %, formaldehyde = 0.040 mg/m3,
CO = 0.5 ppm, O3 = 0.32 ppm, NO2 = 0.80 ppm, and the air quality index of
that Measurement is Hazardous. -/
theorem C1_decode_test_frame :
    ∃ m, Measurement.try_from TEST_DATA = some m ∧
      m.pm_1 = 101 ∧ m.pm_2_5 = 54 ∧ m.pm_10 = 150 ∧ m.co2 = 410 ∧
      m.voc = 0 ∧ m.temperature = 26.5 ∧ m.relative_humidity = 40 ∧
      m.ch2oQ = 0.040 ∧ m.coQ = 0.5 ∧ m.o3Q = 0.32 ∧ m.no2Q = 0.80 ∧
      m.air_quality_index = AirQualityIndex.Hazardous := by
  refine ⟨TEST_MEASUREMENT, try_from_TEST_DATA, by decide, by decide, by decide,
    by decide, by decide, TEST_MEASUREMENT_temperature, by decide, ?_, ?_, ?_, ?_,
    TEST_MEASUREMENT_aqi⟩
  · norm_num [Measurement.ch2oQ, TEST_MEASUREMENT]
  · norm_num [Measurement.coQ, TEST_MEASUREMENT]
  · norm_num [Measurement.o3Q, TEST_MEASUREMENT]
  · norm_num [Measurement.no2Q, TEST_MEASUREMENT]

/-- The chunk handler closure passed to `async_receiver` in `main`,
restricted to its buffer manipulation and parse result.  Input: current
frame buffer and the delivered chunk; output: the buffer after the
invocation and the parsed Measurement when a frame was delivered.
Mirrors the source: the whole chunk is ignored when the buffer is empty
and the first byte is not the start marker; otherwise up to the remaining
capacity is appended; once the buffer reaches the frame size it is parsed
and cleared either way. -/
def processChunk (buffer data : List Nat) : List Nat × Option Measurement :=
  if buffer.isEmpty ∧ data.headI ≠ START_BIT then
    (buffer, none)
  else
    let to_read := min data.length (RESPONSE_SIZE - buffer.length)
    let buffer2 := buffer ++ data.take to_read
    if buffer2.length < RESPONSE_SIZE then
      (buffer2, none)
    else
      match Measurement.try_from buffer2 with
      | none => ([], none)
      | some v => ([], some v)

/-- Iterated chunk handler: the buffer threaded through a list of chunks,
collecting every delivered Measurement. -/
def processChunks (buffer : List Nat) (chunks : List (List Nat)) :
    List Nat × List Measurement :=
  match chunks with
  | [] => (buffer, [])
  | c :: cs =>
    let s := processChunk buffer c
    let r := processChunks s.1 cs
    (r.1, s.2.toList ++ r.2)

/-- C2 counterexample: with an empty buffer, the chunk 00 FF 86 contains
the start marker 0xFF, yet the handler discards the whole chunk and retains
nothing, rather than retaining the bytes from the marker onward. -/
theorem C2_discard_counterexample :
    (processChunk [] [0x00, 0xFF, 0x86]).1 ≠ [0xFF, 0x86] ∧
    processChunk [] [0x00, 0xFF, 0x86] = ([], none) := by decide

/-- C2 (amended): whenever the frame buffer is empty and the first byte of
the delivered (non-empty) chunk is not the start marker 0xFF, the chunk
handler discards the entire chunk — whether or not a 0xFF byte occurs later
in the chunk — leaving the buffer empty and delivering nothing. -/
theorem C2_seeking_discards_whole_chunk (data : List Nat) (hne : data ≠ [])
    (hstart : data.headI ≠ START_BIT) :
    processChunk [] data = ([], none) := by
  unfold processChunk
  simp [hstart]

/-- Witness for C2_seeking_discards_whole_chunk at the chunk 00 FF 86. -/
theorem C2_seeking_discards_whole_chunk_witness :
    ([0x00, 0xFF, 0x86] : List Nat) ≠ [] ∧
    ([0x00, 0xFF, 0x86] : List Nat).headI ≠ START_BIT ∧
    processChunk [] [0x00, 0xFF, 0x86] = ([], none) :=
  ⟨by decide, by decide,
    C2_seeking_discards_whole_chunk [0x00, 0xFF, 0x86] (by decide) (by decide)⟩

lemma foldl_u8_wrapping_add (l : List Nat) (acc : Nat) :
    l.foldl u8_wrapping_add (acc % 256) = (acc + l.sum) % 256 := by
  induction l generalizing acc with
  | nil => simp
  | cons x xs ih =>
    simp only [List.foldl_cons, List.sum_cons]
    have h1 : u8_wrapping_add (acc % 256) x = (acc + x) % 256 := by
      simp [u8_wrapping_add, Nat.mod_add_mod]
    rw [h1, ih (acc + x)]
    ring_nf

/-- The checksum fold equals the two-complement negation of the modular
byte sum. -/
lemma calculate_checksum_eq (l : List Nat) :
    calculate_checksum l = (255 - l.sum % 256 + 1) % 256 := by
  have h0 : l.foldl u8_wrapping_add 0 = l.sum % 256 := by
    have := foldl_u8_wrapping_add l 0
    simpa using this
  simp [calculate_checksum, h0, u8_not, u8_wrapping_add, Nat.mod_mod_of_dvd,
    Nat.mod_self]

/-- C3: for a 26-byte buffer of bytes, Measurement.try_from succeeds iff
byte 25 equals the two-complement negation (NOT(sum) + 1 modulo 256) of the
byte sum of bytes 1 through 24 inclusive; for any other length it fails. -/
theorem C3_try_from_checksum (b : List Nat) (hb : ∀ x ∈ b, x < 256) :
    (b.length = RESPONSE_SIZE →
      ((Measurement.try_from b).isSome ↔
        b.getD 25 0 = (255 - ((b.drop 1).take 24).sum % 256 + 1) % 256)) ∧
    (b.length ≠ RESPONSE_SIZE → Measurement.try_from b = none) := by
  refine ⟨?_, ?_⟩
  · intro hlen
    unfold Measurement.try_from
    rw [if_neg (by simp [hlen]), calculate_checksum_eq]
    split_ifs with h
    · simp only [Option.isSome_none, Bool.false_eq_true, false_iff]
      intro he
      exact h he.symm
    · simp only [Option.isSome_some, true_iff]
      push_neg at h
      exact h.symm
  · intro hlen
    unfold Measurement.try_from
    rw [if_pos hlen]

/-- Witness for C3_try_from_checksum: the test frame satisfies the checksum
equation and is accepted; a 3-byte buffer is rejected. -/
theorem C3_try_from_checksum_witness :
    ((Measurement.try_from TEST_DATA).isSome ↔
      TEST_DATA.getD 25 0 =
        (255 - ((TEST_DATA.drop 1).take 24).sum % 256 + 1) % 256) ∧
    Measurement.try_from [0xFF, 0x86, 0x00] = none :=
  ⟨(C3_try_from_checksum TEST_DATA (by decide)).1 (by decide),
   (C3_try_from_checksum [0xFF, 0x86, 0x00] (by decide)).2 (by decide)⟩

/-- Spec-side tier predicate, following the specification wording: a
Measurement exceeds a (non-Good) tier when at least one of its five
monitored quantities (O3 ppm, PM2.5, PM10, CO ppm, NO2 ppm) strictly
exceeds that tier threshold.  No Measurement exceeds `Good`. -/
def exceedsSpec (m : Measurement) : AirQualityIndex → Prop
  | .Good => False
  | .Moderate =>
    m.o3Q > 0.054 ∨ m.pm_2_5 > 12 ∨ m.pm_10 > 54 ∨ m.coQ > 4.4 ∨ m.no2Q > 0.053
  | .Sensitive =>
    m.o3Q > 0.070 ∨ m.pm_2_5 > 35 ∨ m.pm_10 > 154 ∨ m.coQ > 9.4 ∨ m.no2Q > 0.100
  | .Unhealthy =>
    m.o3Q > 0.085 ∨ m.pm_2_5 > 55 ∨ m.pm_10 > 254 ∨ m.coQ > 12.4 ∨ m.no2Q > 0.360
  | .VeryUnhealthy =>
    m.o3Q > 0.105 ∨ m.pm_2_5 > 150 ∨ m.pm_10 > 354 ∨ m.coQ > 15.4 ∨ m.no2Q > 0.649
  | .Hazardous =>
    m.o3Q > 0.200 ∨ m.pm_2_5 > 250 ∨ m.pm_10 > 424 ∨ m.coQ > 30.0 ∨ m.no2Q > 1.249

/-- The classifier returns exactly the most severe exceeded tier (`Good`
when no tier is exceeded). -/
lemma aqi_eq_iff (m : Measurement) (t : AirQualityIndex) :
    m.air_quality_index = t ↔
      ((t = AirQualityIndex.Good ∧ ∀ u, ¬ exceedsSpec m u) ∨
       (exceedsSpec m t ∧ ∀ u, t.rank < u.rank → ¬ exceedsSpec m u)) := by
  unfold Measurement.air_quality_index
  split_ifs with h1 h2 h3 h4 h5
  · constructor
    · intro he
      subst he
      refine Or.inr ⟨h1, ?_⟩
      intro u hu
      cases u <;> simp [AirQualityIndex.rank] at hu
    · rintro (⟨hg, hall⟩ | ⟨hex, hmax⟩)
      · exact absurd h1 (hall AirQualityIndex.Hazardous)
      · cases t with
        | Hazardous => rfl
        | Good => exact absurd h1 (hmax AirQualityIndex.Hazardous (by decide))
        | Moderate => exact absurd h1 (hmax AirQualityIndex.Hazardous (by decide))
        | Sensitive => exact absurd h1 (hmax AirQualityIndex.Hazardous (by decide))
        | Unhealthy => exact absurd h1 (hmax AirQualityIndex.Hazardous (by decide))
        | VeryUnhealthy =>
          exact absurd h1 (hmax AirQualityIndex.Hazardous (by decide))
  · constructor
    · intro he
      subst he
      refine Or.inr ⟨h2, ?_⟩
      intro u hu
      cases u <;> simp [AirQualityIndex.rank] at hu
      exact h1
    · rintro (⟨hg, hall⟩ | ⟨hex, hmax⟩)
      · exact absurd h2 (hall AirQualityIndex.VeryUnhealthy)
      · cases t with
        | VeryUnhealthy => rfl
        | Hazardous => exact absurd hex h1
        | Good => exact absurd h2 (hmax AirQualityIndex.VeryUnhealthy (by decide))
        | Moderate =>
          exact absurd h2 (hmax AirQualityIndex.VeryUnhealthy (by decide))
        | Sensitive =>
          exact absurd h2 (hmax AirQualityIndex.VeryUnhealthy (by decide))
        | Unhealthy =>
          exact absurd h2 (hmax AirQualityIndex.VeryUnhealthy (by decide))
  · constructor
    · intro he
      subst he
      refine Or.inr ⟨h3, ?_⟩
      intro u hu
      cases u <;> simp [AirQualityIndex.rank] at hu
      exacts [h2, h1]
    · rintro (⟨hg, hall⟩ | ⟨hex, hmax⟩)
      · exact absurd h3 (hall AirQualityIndex.Unhealthy)
      · cases t with
        | Unhealthy => rfl
        | Hazardous => exact absurd hex h1
        | VeryUnhealthy => exact absurd hex h2
        | Good => exact absurd h3 (hmax AirQualityIndex.Unhealthy (by decide))
        | Moderate => exact absurd h3 (hmax AirQualityIndex.Unhealthy (by decide))
        | Sensitive => exact absurd h3 (hmax AirQualityIndex.Unhealthy (by decide))
  · constructor
    · intro he
      subst he
      refine Or.inr ⟨h4, ?_⟩
      intro u hu
      cases u <;> simp [AirQualityIndex.rank] at hu
      exacts [h3, h2, h1]
    · rintro (⟨hg, hall⟩ | ⟨hex, hmax⟩)
      · exact absurd h4 (hall AirQualityIndex.Sensitive)
      · cases t with
        | Sensitive => rfl
        | Hazardous => exact absurd hex h1
        | VeryUnhealthy => exact absurd hex h2
        | Unhealthy => exact absurd hex h3
        | Good => exact absurd h4 (hmax AirQualityIndex.Sensitive (by decide))
        | Moderate => exact absurd h4 (hmax AirQualityIndex.Sensitive (by decide))
  · constructor
    · intro he
      subst he
      refine Or.inr ⟨h5, ?_⟩
      intro u hu
      cases u <;> simp [AirQualityIndex.rank] at hu
      exacts [h4, h3, h2, h1]
    · rintro (⟨hg, hall⟩ | ⟨hex, hmax⟩)
      · exact absurd h5 (hall AirQualityIndex.Moderate)
      · cases t with
        | Moderate => rfl
        | Hazardous => exact absurd hex h1
        | VeryUnhealthy => exact absurd hex h2
        | Unhealthy => exact absurd hex h3
        | Sensitive => exact absurd hex h4
        | Good => exact absurd h5 (hmax AirQualityIndex.Moderate (by decide))
  · constructor
    · intro he
      subst he
      refine Or.inl ⟨rfl, ?_⟩
      intro u
      cases u with
      | Good => exact fun h => h.elim
      | Moderate => exact h5
      | Sensitive => exact h4
      | Unhealthy => exact h3
      | VeryUnhealthy => exact h2
      | Hazardous => exact h1
    · rintro (⟨hg, hall⟩ | ⟨hex, hmax⟩)
      · exact hg.symm
      · cases t with
        | Good => exact hex.elim
        | Moderate => exact absurd hex h5
        | Sensitive => exact absurd hex h4
        | Unhealthy => exact absurd hex h3
        | VeryUnhealthy => exact absurd hex h2
        | Hazardous => exact absurd hex h1

/-- C4: the classifier returns the most severe tier among Hazardous,
VeryUnhealthy, Unhealthy, Sensitive, Moderate for which at least one of
the five monitored quantities strictly exceeds that tier threshold, and
Good when no tier is exceeded. -/
theorem C4_aqi_most_severe_exceeded (m : Measurement) (t : AirQualityIndex) :
    m.air_quality_index = t ↔
      ((t = AirQualityIndex.Good ∧ ∀ u, ¬ exceedsSpec m u) ∨
       (exceedsSpec m t ∧ ∀ u, t.rank < u.rank → ¬ exceedsSpec m u)) :=
  aqi_eq_iff m t

lemma o3Q_mono {m m2 : Measurement} (h : m.o3 ≤ m2.o3) : m.o3Q ≤ m2.o3Q := by
  unfold Measurement.o3Q
  exact mul_le_mul_of_nonneg_left (by exact_mod_cast h) (by norm_num)

lemma coQ_mono {m m2 : Measurement} (h : m.co ≤ m2.co) : m.coQ ≤ m2.coQ := by
  unfold Measurement.coQ
  exact mul_le_mul_of_nonneg_left (by exact_mod_cast h) (by norm_num)

lemma no2Q_mono {m m2 : Measurement} (h : m.no2 ≤ m2.no2) : m.no2Q ≤ m2.no2Q := by
  unfold Measurement.no2Q
  exact mul_le_mul_of_nonneg_left (by exact_mod_cast h) (by norm_num)

/-- Raising any of the five monitored quantities preserves every exceeded
tier. -/
lemma exceedsSpec_mono (m m2 : Measurement) (h25 : m.pm_2_5 ≤ m2.pm_2_5)
    (h10 : m.pm_10 ≤ m2.pm_10) (ho3 : m.o3 ≤ m2.o3) (hco : m.co ≤ m2.co)
    (hno2 : m.no2 ≤ m2.no2) (t : AirQualityIndex) :
    exceedsSpec m t → exceedsSpec m2 t := by
  have mo3 := o3Q_mono ho3
  have mco := coQ_mono hco
  have mno2 := no2Q_mono hno2
  cases t
  case Good => exact id
  all_goals
    simp only [exceedsSpec]
    rintro (h | h | h | h | h) <;>
      first
        | exact Or.inl (lt_of_lt_of_le h mo3)
        | exact Or.inr (Or.inl (by omega))
        | exact Or.inr (Or.inr (Or.inl (by omega)))
        | exact Or.inr (Or.inr (Or.inr (Or.inl (lt_of_lt_of_le h mco))))
        | exact Or.inr (Or.inr (Or.inr (Or.inr (lt_of_lt_of_le h mno2))))

/-- Raising any of the five monitored quantities never lowers the tier. -/
lemma aqi_rank_mono (m m2 : Measurement) (h25 : m.pm_2_5 ≤ m2.pm_2_5)
    (h10 : m.pm_10 ≤ m2.pm_10) (ho3 : m.o3 ≤ m2.o3) (hco : m.co ≤ m2.co)
    (hno2 : m.no2 ≤ m2.no2) :
    m.air_quality_index.rank ≤ m2.air_quality_index.rank := by
  have hm := (aqi_eq_iff m m.air_quality_index).mp rfl
  have hm2 := (aqi_eq_iff m2 m2.air_quality_index).mp rfl
  rcases hm with ⟨hg, _⟩ | ⟨hex, _⟩
  · rw [hg]
    exact Nat.zero_le _
  · have hex2 : exceedsSpec m2 m.air_quality_index :=
      exceedsSpec_mono m m2 h25 h10 ho3 hco hno2 _ hex
    rcases hm2 with ⟨_, hall2⟩ | ⟨_, hmax2⟩
    · exact absurd hex2 (hall2 _)
    · by_contra hlt
      push_neg at hlt
      exact absurd hex2 (hmax2 _ hlt)

/-- C5: increasing exactly one of the five monitored fields (o3, pm_2_5,
pm_10, co, no2), all other fields held fixed, never decreases the resulting
tier in the severity order Good < Moderate < Sensitive < Unhealthy <
VeryUnhealthy < Hazardous. -/
theorem C5_aqi_monotone (m : Measurement) (v : Nat) :
    (m.o3 < v →
      m.air_quality_index.rank ≤
        ({ m with o3 := v } : Measurement).air_quality_index.rank) ∧
    (m.pm_2_5 < v →
      m.air_quality_index.rank ≤
        ({ m with pm_2_5 := v } : Measurement).air_quality_index.rank) ∧
    (m.pm_10 < v →
      m.air_quality_index.rank ≤
        ({ m with pm_10 := v } : Measurement).air_quality_index.rank) ∧
    (m.co < v →
      m.air_quality_index.rank ≤
        ({ m with co := v } : Measurement).air_quality_index.rank) ∧
    (m.no2 < v →
      m.air_quality_index.rank ≤
        ({ m with no2 := v } : Measurement).air_quality_index.rank) :=
  ⟨fun h => aqi_rank_mono m _ (le_refl _) (le_refl _) (le_of_lt h) (le_refl _)
      (le_refl _),
   fun h => aqi_rank_mono m _ (le_of_lt h) (le_refl _) (le_refl _) (le_refl _)
      (le_refl _),
   fun h => aqi_rank_mono m _ (le_refl _) (le_of_lt h) (le_refl _) (le_refl _)
      (le_refl _),
   fun h => aqi_rank_mono m _ (le_refl _) (le_refl _) (le_refl _) (le_of_lt h)
      (le_refl _),
   fun h => aqi_rank_mono m _ (le_refl _) (le_refl _) (le_refl _) (le_refl _)
      (le_of_lt h)⟩

/-- Witness for C5_aqi_monotone: each single-field increase applied to the
decoded test measurement. -/
theorem C5_aqi_monotone_witness :
    TEST_MEASUREMENT.o3 < 60000 ∧
    TEST_MEASUREMENT.air_quality_index.rank ≤
      ({ TEST_MEASUREMENT with o3 := 60000 } : Measurement).air_quality_index.rank ∧
    TEST_MEASUREMENT.pm_2_5 < 60000 ∧
    TEST_MEASUREMENT.air_quality_index.rank ≤
      ({ TEST_MEASUREMENT with pm_2_5 := 60000 } : Measurement).air_quality_index.rank ∧
    TEST_MEASUREMENT.no2 < 60000 ∧
    TEST_MEASUREMENT.air_quality_index.rank ≤
      ({ TEST_MEASUREMENT with no2 := 60000 } : Measurement).air_quality_index.rank :=
  ⟨by decide, (C5_aqi_monotone TEST_MEASUREMENT 60000).1 (by decide),
   by decide, (C5_aqi_monotone TEST_MEASUREMENT 60000).2.1 (by decide),
   by decide, (C5_aqi_monotone TEST_MEASUREMENT 60000).2.2.2.2 (by decide)⟩

/-- A valid frame: 26 bytes, starting with the 0xFF marker, accepted by
Measurement.try_from (i.e. passing the checksum). -/
def ValidFrame (f : List Nat) : Prop :=
  f.length = RESPONSE_SIZE ∧ f.headI = START_BIT ∧
    (Measurement.try_from f).isSome

lemma processChunk_partial (p c : List Nat)
    (hgate : ¬(p.isEmpty ∧ c.headI ≠ START_BIT))
    (hlt : p.length + c.length < RESPONSE_SIZE) :
    processChunk p c = (p ++ c, none) := by
  have hmin : min c.length (RESPONSE_SIZE - p.length) = c.length := by
    unfold RESPONSE_SIZE at hlt ⊢
    omega
  simp only [processChunk, hmin, List.take_length]
  rw [if_neg hgate, if_pos (by simp [List.length_append]; omega)]

lemma processChunk_complete (p c : List Nat)
    (hgate : ¬(p.isEmpty ∧ c.headI ≠ START_BIT))
    (hlen : p.length + c.length = RESPONSE_SIZE) :
    processChunk p c =
      match Measurement.try_from (p ++ c) with
      | none => ([], none)
      | some v => ([], some v) := by
  have hmin : min c.length (RESPONSE_SIZE - p.length) = c.length := by
    unfold RESPONSE_SIZE at hlen ⊢
    omega
  simp only [processChunk, hmin, List.take_length]
  rw [if_neg hgate, if_neg (by simp [List.length_append]; omega)]

lemma processChunks_cons (buffer c : List Nat) (cs : List (List Nat)) :
    processChunks buffer (c :: cs) =
      ((processChunks (processChunk buffer c).1 cs).1,
       (processChunk buffer c).2.toList ++
         (processChunks (processChunk buffer c).1 cs).2) := rfl

/-- Feeding a partition of a checksum-valid frame, starting from any
already-buffered prefix of it, assembles the frame and delivers exactly its
Measurement, leaving the buffer empty. -/
lemma processChunks_assembles (m : Measurement) :
    ∀ (chunks : List (List Nat)) (p : List Nat), chunks ≠ [] →
      (∀ c ∈ chunks, c ≠ []) →
      (p ++ chunks.flatten).length = RESPONSE_SIZE →
      (p ++ chunks.flatten).headI = START_BIT →
      Measurement.try_from (p ++ chunks.flatten) = some m →
      processChunks p chunks = ([], [m]) := by
  intro chunks
  induction chunks with
  | nil => intro p h; exact absurd rfl h
  | cons c cs ih =>
    intro p _ hall hlen hhead htf
    have hc : c ≠ [] := hall c (List.mem_cons_self c cs)
    have hgate : ¬(p.isEmpty ∧ c.headI ≠ START_BIT) := by
      by_cases hp : p = []
      · subst hp
        obtain ⟨x, xs, rfl⟩ := List.exists_cons_of_ne_nil hc
        simp only [List.nil_append, List.flatten_cons, List.cons_append,
          List.headI_cons] at hhead
        simp [hhead]
      · simp [List.isEmpty_iff, hp]
    cases cs with
    | nil =>
      simp only [List.flatten_cons, List.flatten_nil, List.append_nil]
        at hlen hhead htf
      have hstep := processChunk_complete p c hgate (by
        simpa [List.length_append] using hlen)
      rw [htf] at hstep
      rw [processChunks_cons, hstep]
      simp [processChunks]
    | cons d ds =>
      have hd : d ≠ [] := hall d (by simp)
      have hdlen : 0 < d.length := List.length_pos.mpr hd
      have hlt : p.length + c.length < RESPONSE_SIZE := by
        simp only [List.flatten_cons, List.length_append] at hlen
        omega
      have hstep := processChunk_partial p c hgate hlt
      have hrec := ih (p ++ c) (by simp) (fun x hx => hall x (by simp [hx]))
        (by simpa [List.append_assoc, List.flatten_cons] using hlen)
        (by simpa [List.append_assoc, List.flatten_cons] using hhead)
        (by simpa [List.append_assoc, List.flatten_cons] using htf)
      rw [processChunks_cons, hstep]
      simp [hrec]

/-- C6: feeding any partition of a valid frame into non-empty chunks,
starting from an empty buffer, produces exactly the same result (final
buffer and delivered Measurements) as feeding the whole frame as a single
chunk. -/
theorem C6_chunk_boundary_independence (frame : List Nat)
    (chunks : List (List Nat)) (hvalid : ValidFrame frame)
    (hjoin : chunks.flatten = frame) (hne : ∀ c ∈ chunks, c ≠ []) :
    processChunks [] chunks = processChunks [] [frame] := by
  obtain ⟨hlen, hhead, hsome⟩ := hvalid
  obtain ⟨m, hm⟩ := Option.isSome_iff_exists.mp hsome
  have hcne : chunks ≠ [] := by
    intro h
    subst h
    simp only [List.flatten_nil] at hjoin
    rw [← hjoin] at hlen
    simp [RESPONSE_SIZE] at hlen
  have h1 : processChunks [] chunks = ([], [m]) :=
    processChunks_assembles m chunks [] hcne hne
      (by simpa [hjoin] using hlen) (by simpa [hjoin] using hhead)
      (by simpa [hjoin] using hm)
  have hfne : frame ≠ [] := by
    intro h
    rw [h] at hlen
    simp [RESPONSE_SIZE] at hlen
  have h2 : processChunks [] [frame] = ([], [m]) :=
    processChunks_assembles m [frame] [] (by simp)
      (by
        intro c hcmem
        simp only [List.mem_singleton] at hcmem
        subst hcmem
        exact hfne)
      (by simpa using hlen) (by simpa using hhead) (by simpa using hm)
  rw [h1, h2]

/-- Witness for C6_chunk_boundary_independence: the test frame split after
its fifth byte. -/
theorem C6_chunk_boundary_independence_witness :
    ValidFrame TEST_DATA ∧
    ([TEST_DATA.take 5, TEST_DATA.drop 5] : List (List Nat)).flatten =
      TEST_DATA ∧
    (∀ c ∈ ([TEST_DATA.take 5, TEST_DATA.drop 5] : List (List Nat)), c ≠ []) ∧
    processChunks [] [TEST_DATA.take 5, TEST_DATA.drop 5] =
      processChunks [] [TEST_DATA] :=
  ⟨⟨by decide, by decide, by decide⟩, by decide, by decide,
   C6_chunk_boundary_independence TEST_DATA
     [TEST_DATA.take 5, TEST_DATA.drop 5] ⟨by decide, by decide, by decide⟩
     (by decide) (by decide)⟩

/-- The frame buffer invariant: bounded by the frame size, and empty or
led by the start marker. -/
def BufferInv (b : List Nat) : Prop :=
  b.length ≤ RESPONSE_SIZE ∧ (b = [] ∨ b.headI = START_BIT)

lemma processChunk_gate (b data : List Nat)
    (hgate : b.isEmpty ∧ data.headI ≠ START_BIT) :
    processChunk b data = (b, none) := by
  unfold processChunk
  rw [if_pos hgate]

lemma processChunk_incomplete (b data : List Nat)
    (hgate : ¬(b.isEmpty ∧ data.headI ≠ START_BIT))
    (hlt : b.length + min data.length (RESPONSE_SIZE - b.length) <
      RESPONSE_SIZE) :
    processChunk b data =
      (b ++ data.take (min data.length (RESPONSE_SIZE - b.length)), none) := by
  unfold processChunk
  rw [if_neg hgate, if_pos (by
    simp only [List.length_append, List.length_take]
    omega)]

lemma processChunk_clears (b data : List Nat)
    (hgate : ¬(b.isEmpty ∧ data.headI ≠ START_BIT))
    (hfull : RESPONSE_SIZE ≤ b.length +
      min data.length (RESPONSE_SIZE - b.length)) :
    (processChunk b data).1 = [] := by
  unfold processChunk
  rw [if_neg hgate, if_neg (by
    simp only [List.length_append, List.length_take, not_lt]
    omega)]
  split <;> rfl

lemma processChunk_inv (b data : List Nat) (hinv : BufferInv b) :
    BufferInv (processChunk b data).1 := by
  by_cases hgate : b.isEmpty ∧ data.headI ≠ START_BIT
  · rw [processChunk_gate b data hgate]
    exact hinv
  · by_cases hlt : b.length + min data.length (RESPONSE_SIZE - b.length) <
      RESPONSE_SIZE
    · rw [processChunk_incomplete b data hgate hlt]
      constructor
      · simp only [List.length_append, List.length_take]
        omega
      · rcases hinv.2 with hb | hb
        · subst hb
          cases data with
          | nil => exact absurd ⟨rfl, by decide⟩ hgate
          | cons x xs =>
            right
            have hx : x = START_BIT := by
              by_contra hxne
              exact hgate ⟨rfl, by simpa [List.headI] using hxne⟩
            have hpos : 0 < min (x :: xs).length
                (RESPONSE_SIZE - ([] : List Nat).length) := by
              simp [RESPONSE_SIZE]
            obtain ⟨n, hn⟩ := Nat.exists_eq_add_of_lt hpos
            rw [List.nil_append, hn]
            simp [List.take_succ_cons, List.headI, hx]
        · right
          have hbne : b ≠ [] := by
            intro h
            rw [h] at hb
            simp [List.headI, START_BIT] at hb
          obtain ⟨x, xs, rfl⟩ := List.exists_cons_of_ne_nil hbne
          simpa [List.headI] using hb
    · rw [processChunk_clears b data hgate (Nat.le_of_not_lt hlt)]
      exact ⟨by simp [RESPONSE_SIZE], Or.inl rfl⟩

lemma processChunks_inv : ∀ (chunks : List (List Nat)) (b : List Nat),
    BufferInv b → BufferInv (processChunks b chunks).1 := by
  intro chunks
  induction chunks with
  | nil => intro b h; exact h
  | cons c cs ih =>
    intro b h
    rw [processChunks_cons]
    exact ih (processChunk b c).1 (processChunk_inv b c h)

/-- C7: after any sequence of non-empty chunks, the buffer holds at most 26
bytes and is empty or starts with the 0xFF marker; and any invocation in
which the buffer reaches the frame size (a delivery attempt, parsed
successfully or not) leaves the buffer empty. -/
theorem C7_buffer_invariant (chunks : List (List Nat))
    (hne : ∀ c ∈ chunks, c ≠ []) :
    (processChunks [] chunks).1.length ≤ RESPONSE_SIZE ∧
    ((processChunks [] chunks).1 = [] ∨
      (processChunks [] chunks).1.headI = START_BIT) ∧
    (∀ data : List Nat, data ≠ [] →
      ¬((processChunks [] chunks).1.isEmpty ∧ data.headI ≠ START_BIT) →
      RESPONSE_SIZE ≤ (processChunks [] chunks).1.length +
        min data.length (RESPONSE_SIZE - (processChunks [] chunks).1.length) →
      (processChunk (processChunks [] chunks).1 data).1 = []) := by
  have h := processChunks_inv chunks [] ⟨by simp [RESPONSE_SIZE], Or.inl rfl⟩
  exact ⟨h.1, h.2, fun data _ hg hf => processChunk_clears _ data hg hf⟩

/-- Witness for C7_buffer_invariant: a single 10-byte prefix chunk of the
test frame. -/
theorem C7_buffer_invariant_witness :
    (∀ c ∈ ([TEST_DATA.take 10] : List (List Nat)), c ≠ []) ∧
    ((processChunks [] [TEST_DATA.take 10]).1.length ≤ RESPONSE_SIZE ∧
     ((processChunks [] [TEST_DATA.take 10]).1 = [] ∨
       (processChunks [] [TEST_DATA.take 10]).1.headI = START_BIT) ∧
     (∀ data : List Nat, data ≠ [] →
       ¬((processChunks [] [TEST_DATA.take 10]).1.isEmpty ∧
         data.headI ≠ START_BIT) →
       RESPONSE_SIZE ≤ (processChunks [] [TEST_DATA.take 10]).1.length +
         min data.length
           (RESPONSE_SIZE - (processChunks [] [TEST_DATA.take 10]).1.length) →
       (processChunk (processChunks [] [TEST_DATA.take 10]).1 data).1 = [])) :=
  ⟨by decide, C7_buffer_invariant [TEST_DATA.take 10] (by decide)⟩

/-- The mutable state the chunk handler touches: the frame buffer, the
shared Measurement (`VALUES`) and the sample counter (`SAMPLE_COUNT`). -/
structure AppState where
  buffer : List Nat
  values : Measurement
  sample_count : Nat
  deriving DecidableEq, Repr

/-- Observable side effects fired by the chunk handler. -/
inductive Effect where
  | notify (aqi : AirQualityIndex)
  | displayRefresh
  deriving DecidableEq, Repr

/-- The full chunk handler closure from `main`, including the shared-state
updates and side effects: on a successful parse it replaces VALUES, fires a
notification when the air-quality tier changed, increments SAMPLE_COUNT and
requests a display refresh; on a checksum failure it only clears the
buffer. -/
def handleChunk (s : AppState) (data : List Nat) : AppState × List Effect :=
  if s.buffer.isEmpty ∧ data.headI ≠ START_BIT then
    (s, [])
  else
    let to_read := min data.length (RESPONSE_SIZE - s.buffer.length)
    let buffer2 := s.buffer ++ data.take to_read
    if buffer2.length < RESPONSE_SIZE then
      ({ s with buffer := buffer2 }, [])
    else
      let last_aqi := s.values.air_quality_index
      match Measurement.try_from buffer2 with
      | none => ({ s with buffer := [] }, [])
      | some v =>
        let aqi := v.air_quality_index
        ({ buffer := [], values := v, sample_count := s.sample_count + 1 },
         (if aqi ≠ last_aqi then [Effect.notify aqi] else []) ++
           [Effect.displayRefresh])

/-- C8: when an assembled 26-byte frame fails checksum validation
(Measurement.try_from rejects it), the handler leaves VALUES, SAMPLE_COUNT
(and hence the derived air-quality tier) unchanged, fires no notification
and no display refresh, and only clears the frame buffer. -/
theorem C8_bad_checksum_no_update (s : AppState) (data : List Nat)
    (hgate : ¬(s.buffer.isEmpty ∧ data.headI ≠ START_BIT))
    (hfull : RESPONSE_SIZE ≤ s.buffer.length +
      min data.length (RESPONSE_SIZE - s.buffer.length))
    (hbad : Measurement.try_from (s.buffer ++
      data.take (min data.length (RESPONSE_SIZE - s.buffer.length))) = none) :
    handleChunk s data = ({ s with buffer := [] }, []) := by
  unfold handleChunk
  rw [if_neg hgate, if_neg (by
    simp only [List.length_append, List.length_take, not_lt]
    omega)]
  rw [hbad]

/-- Witness for C8_bad_checksum_no_update: 25 buffered bytes of the test
frame completed by a wrong checksum byte 0x00. -/
theorem C8_bad_checksum_no_update_witness :
    ¬((⟨TEST_DATA.take 25, TEST_MEASUREMENT, 7⟩ : AppState).buffer.isEmpty ∧
      ([0x00] : List Nat).headI ≠ START_BIT) ∧
    RESPONSE_SIZE ≤ (⟨TEST_DATA.take 25, TEST_MEASUREMENT, 7⟩ :
        AppState).buffer.length +
      min ([0x00] : List Nat).length (RESPONSE_SIZE -
        (⟨TEST_DATA.take 25, TEST_MEASUREMENT, 7⟩ : AppState).buffer.length) ∧
    handleChunk ⟨TEST_DATA.take 25, TEST_MEASUREMENT, 7⟩ [0x00] =
      (⟨[], TEST_MEASUREMENT, 7⟩, []) :=
  ⟨by decide, by decide,
   C8_bad_checksum_no_update ⟨TEST_DATA.take 25, TEST_MEASUREMENT, 7⟩ [0x00]
     (by decide) (by decide) (by decide)⟩

/-- The test frame with VOC byte (index 10) set to 4 and the checksum byte
adjusted accordingly (0xEA - 4 = 0xE6). -/
def VOC_OVERFLOW_FRAME : List Nat :=
  [0xFF, 0x86, 0x00, 0x65, 0x00, 0x36, 0x00, 0x96, 0x01, 0x9A, 0x04, 0x02,
   0xFD, 0x00, 0x28, 0x00, 0x28, 0x00, 0x05, 0x00, 0x20, 0x00, 0x50, 0x00,
   0x00, 0xE6]

/-- C10: Measurement.try_from stores frame byte 10 into the voc field
without range validation, so a checksum-valid frame whose byte 10 exceeds 3
is accepted, and on the accepted Measurement the voc accessor reaches its
panic arm (modelled as `none`): the accessor is partial and the panic is
reachable from a checksum-valid input frame. -/
theorem C10_voc_panic_reachable :
    ∃ m, Measurement.try_from VOC_OVERFLOW_FRAME = some m ∧
      m.voc = VOC_OVERFLOW_FRAME.getD 10 0 ∧ 3 < m.voc ∧
      m.vocLevel = none :=
  ⟨{ TEST_MEASUREMENT with voc := 4 }, by decide, by decide, by decide,
   by decide⟩

/-- `Subscription` from src/furi/pubsub.rs: the bus it was created from and
the raw registration token returned by the host.  Pointers are modelled as
numeric identifiers. -/
structure Subscription where
  pubsub : Nat
  raw : Nat
  deriving DecidableEq, Repr

/-- Host calls performed by the wrapper. -/
inductive HostCall where
  | unsubscribe (bus : Nat) (token : Nat)
  deriving DecidableEq, Repr

/-- `Drop for Subscription`: exactly one furi_pubsub_unsubscribe host call,
with the bus the subscription was created from and its registration
token. -/
def Subscription.dropCalls (s : Subscription) : List HostCall :=
  [HostCall.unsubscribe s.pubsub s.raw]

/-- Modelled from the spec: the host furi_pubsub primitive
(furi_pubsub_subscribe / furi_pubsub_unsubscribe / furi_pubsub_publish) is
not part of this repository.  Per the spec it keeps a set of registrations
keyed by token: subscribe(callback, context) returns a fresh token,
unsubscribe(token) removes exactly that registration, and publish invokes
every live registration callback.  A registration is a (token, callback)
pair; the state also carries the next fresh token. -/
structure BusState where
  subs : List (Nat × Nat)
  nextToken : Nat
  deriving DecidableEq, Repr

/-- Modelled from the spec: host subscribe returns a fresh token. -/
def furi_pubsub_subscribe (b : BusState) (cb : Nat) : BusState × Nat :=
  ({ subs := b.subs ++ [(b.nextToken, cb)], nextToken := b.nextToken + 1 },
   b.nextToken)

/-- Modelled from the spec: host unsubscribe removes exactly the
registration with the given token. -/
def furi_pubsub_unsubscribe (b : BusState) (t : Nat) : BusState :=
  { b with subs := b.subs.filter (fun p => p.1 != t) }

/-- Modelled from the spec: host publish invokes every live registration
(the returned list is the sequence of invoked registrations). -/
def furi_pubsub_publish (b : BusState) : List (Nat × Nat) :=
  b.subs

/-- Actions on a bus after a drop. -/
inductive BusAction where
  | subscribe (cb : Nat)
  | unsubscribe (t : Nat)
  | publish
  deriving DecidableEq, Repr

/-- One step of the bus: the next state and the registrations invoked by
the step (non-empty only for publish). -/
def busStep (b : BusState) : BusAction → BusState × List (Nat × Nat)
  | .subscribe cb => ((furi_pubsub_subscribe b cb).1, [])
  | .unsubscribe t => (furi_pubsub_unsubscribe b t, [])
  | .publish => (b, furi_pubsub_publish b)

/-- All registrations invoked along a run of the bus. -/
def invocations (b : BusState) : List BusAction → List (Nat × Nat)
  | [] => []
  | a :: rest => (busStep b a).2 ++ invocations (busStep b a).1 rest

/-- A token that is neither registered nor available for re-issue. -/
def TokenFree (t : Nat) (b : BusState) : Prop :=
  (∀ p ∈ b.subs, p.1 ≠ t) ∧ t < b.nextToken

lemma tokenFree_step (t : Nat) (b : BusState) (a : BusAction)
    (h : TokenFree t b) : TokenFree t (busStep b a).1 := by
  cases a with
  | subscribe cb =>
    refine ⟨?_, ?_⟩
    · intro p hp
      simp only [busStep, furi_pubsub_subscribe, List.mem_append,
        List.mem_singleton] at hp
      rcases hp with hp | hp
      · exact h.1 p hp
      · rw [hp]
        exact Nat.ne_of_gt h.2
    · have := h.2
      simp only [busStep, furi_pubsub_subscribe]
      omega
  | unsubscribe u =>
    exact ⟨fun p hp => h.1 p (List.mem_of_mem_filter hp), h.2⟩
  | publish => exact h

/-- A free token is never invoked on any subsequent run. -/
lemma tokenFree_never_invoked (t : Nat) :
    ∀ (acts : List BusAction) (b : BusState), TokenFree t b →
      ∀ p ∈ invocations b acts, p.1 ≠ t := by
  intro acts
  induction acts with
  | nil =>
    intro b _ p hp
    simp [invocations] at hp
  | cons a rest ih =>
    intro b hb p hp
    simp only [invocations, List.mem_append] at hp
    rcases hp with hp | hp
    · cases a with
      | subscribe cb => simp [busStep] at hp
      | unsubscribe u => simp [busStep] at hp
      | publish =>
        exact hb.1 p (by simpa [busStep, furi_pubsub_publish] using hp)
    · exact ih (busStep b a).1 (tokenFree_step t b a hb) p hp

/-- C9: dropping a Subscription performs exactly one
furi_pubsub_unsubscribe call with its registration token on its bus; after
the unsubscribe, on a bus whose registered tokens were all issued by the
host (tokens below nextToken), no later run of the bus ever invokes that
registration again, and every other registration on the bus survives the
unsubscribe. -/
theorem C9_drop_unsubscribes_and_silences (b : BusState) (s : Subscription) :
    Subscription.dropCalls s = [HostCall.unsubscribe s.pubsub s.raw] ∧
    (∀ p ∈ b.subs, p.1 ≠ s.raw →
      p ∈ (furi_pubsub_unsubscribe b s.raw).subs) ∧
    (s.raw < b.nextToken →
      ∀ acts : List BusAction,
        ∀ p ∈ invocations (furi_pubsub_unsubscribe b s.raw) acts,
          p.1 ≠ s.raw) := by
  refine ⟨rfl, ?_, ?_⟩
  · intro p hp hne
    exact List.mem_filter.mpr ⟨hp, by simpa [bne_iff_ne] using hne⟩
  · intro ht acts
    apply tokenFree_never_invoked
    constructor
    · intro p hp
      have := (List.mem_filter.mp hp).2
      simpa [bne_iff_ne] using this
    · simpa [furi_pubsub_unsubscribe] using ht

/-- Witness for C9_drop_unsubscribes_and_silences: a bus holding two
registrations with tokens 0 and 1, dropping the subscription with token
0. -/
theorem C9_drop_unsubscribes_and_silences_witness :
    Subscription.dropCalls ⟨5, 0⟩ = [HostCall.unsubscribe 5 0] ∧
    (∀ p ∈ (⟨[(0, 10), (1, 11)], 2⟩ : BusState).subs,
      p.1 ≠ (⟨5, 0⟩ : Subscription).raw →
      p ∈ (furi_pubsub_unsubscribe ⟨[(0, 10), (1, 11)], 2⟩
        (⟨5, 0⟩ : Subscription).raw).subs) ∧
    (∀ acts : List BusAction,
      ∀ p ∈ invocations (furi_pubsub_unsubscribe ⟨[(0, 10), (1, 11)], 2⟩
        (⟨5, 0⟩ : Subscription).raw) acts,
        p.1 ≠ (⟨5, 0⟩ : Subscription).raw) :=
  ⟨(C9_drop_unsubscribes_and_silences ⟨[(0, 10), (1, 11)], 2⟩ ⟨5, 0⟩).1,
   (C9_drop_unsubscribes_and_silences ⟨[(0, 10), (1, 11)], 2⟩ ⟨5, 0⟩).2.1,
   (C9_drop_unsubscribes_and_silences ⟨[(0, 10), (1, 11)], 2⟩ ⟨5, 0⟩).2.2
     (by decide)⟩
